import Mathlib

/-!
Verification of the genny telemetry pipeline: a shallow embedding of
`src/workloads/contrib/analysis/test_result_summary_v2.py` (rollup
extraction and aggregation) and `src/python/genny/cedar_report.py`
(report assembly and certificate fetch), with theorems checking the
specification claims against the embedded code.

Numbers are modelled as exact rationals; Python `round(x, 3)` is
modelled as round-half-to-even at three decimal places.
-/

/-- Round-half-to-even of a rational to an integer, matching the tie
behaviour of Python builtin `round`. -/
def roundHalfEven (q : ℚ) : ℤ :=
  let f : ℤ := Int.floor q
  let frac : ℚ := q - f
  if frac < 1/2 then f
  else if frac > 1/2 then f + 1
  else if f % 2 = 0 then f else f + 1

/-- Python `round(q, 3)`: round to three decimal places, ties to even. -/
def pyRound3 (q : ℚ) : ℚ := (roundHalfEven (q * 1000) : ℚ) / 1000

/-- Values that can sit under the "Value" key of one rollup output
record, as produced by `json.load`.  Python treats booleans as
integers in arithmetic, so JSON booleans are embedded as `num 0` or
`num 1`; strings and null are the values on which the numeric
conversion (or the final `round`) raises `TypeError`. -/
inductive PyVal where
  | num (q : ℚ)
  | str (s : String)
  | null
deriving DecidableEq

/-- One record of the rollup tool output: `item.get("Name")` and
`item.get("Value")` in the source, `none` when the key is absent. -/
structure OutputItem where
  Name : Option String
  Value : Option PyVal

/-- The `FIELDS_TO_EXTRACT` dict of `test_result_summary_v2.py`: each
recognized field name paired with its conversion lambda. -/
def FIELDS_TO_EXTRACT : List (String × (ℚ → ℚ)) :=
  [("AverageLatency", fun v => v / 1000000),
   ("OperationThroughput", fun v => v),
   ("ErrorRate", fun v => v),
   ("Latency50thPercentile", fun v => v / 1000000),
   ("Latency80thPercentile", fun v => v / 1000000),
   ("Latency90thPercentile", fun v => v / 1000000),
   ("Latency95thPercentile", fun v => v / 1000000),
   ("Latency99thPercentile", fun v => v / 1000000),
   ("LatencyMin", fun v => v / 1000000),
   ("LatencyMax", fun v => v / 1000000),
   ("DurationTotal", fun v => v / 1000000000),
   ("ErrorsTotal", fun v => v),
   ("OperationsTotal", fun v => v),
   ("DocumentsTotal", fun v => v)]

/-- The membership test `name in FIELDS_TO_EXTRACT` together with the
lookup `FIELDS_TO_EXTRACT[name]`. -/
def lookupField (n : String) : Option (ℚ → ℚ) :=
  (FIELDS_TO_EXTRACT.find? (fun p => p.1 == n)).map Prod.snd

/-- Python dict assignment `d[k] = v`: update in place when the key is
present, append otherwise (insertion order preserved). -/
def dictInsert {α : Type} : List (String × α) → String → α → List (String × α)
  | [], k, v => [(k, v)]
  | (k', v') :: rest, k, v =>
    if k' = k then (k', v) :: rest else (k', v') :: dictInsert rest k v

/-- Python dict read `d.get(k)`. -/
def dictGet {α : Type} (d : List (String × α)) (k : String) : Option α :=
  (d.find? (fun p => p.1 == k)).map Prod.snd

/-- The record loop of `process_ftdc_files`: fold the output records
into the `filtered` dict.  A record with a recognized `Name` whose
`Value` is missing or not a number raises `TypeError` inside the
`try` block (either at the division or at `round`), aborting the whole
file; this is the `.error` result. -/
def extractFields : List OutputItem → List (String × ℚ) → Except Unit (List (String × ℚ))
  | [], acc => .ok acc
  | item :: rest, acc =>
    match item.Name with
    | none => extractFields rest acc
    | some n =>
      match lookupField n with
      | none => extractFields rest acc
      | some conv =>
        match item.Value with
        | some (PyVal.num q) => extractFields rest (dictInsert acc n (pyRound3 (conv q)))
        | _ => .error ()

/-- Outcome of processing a single capture: the curator subprocess
exits non-zero (`toolFail`), the output file cannot be read or parsed
by `json.load` (`readFail`), or it parses to a list of records. -/
inductive ToolOutcome where
  | toolFail
  | readFail
  | parsed (items : List OutputItem)

/-- One entry of the capture directory listing together with what the
external tool does on it. -/
structure FtdcFile where
  filename : String
  outcome : ToolOutcome

/-- Python `s.endswith(suf)`. -/
def strEndsWith (s suf : String) : Bool := List.isSuffixOf suf.data s.data

/-- Python `filename[:-5]`, used to strip the ".ftdc" extension. -/
def dropRight5 (s : String) : String := ⟨s.data.take (s.data.length - 5)⟩

/-- The `for filename in os.listdir(...)` loop of `process_ftdc_files`,
threading the accumulating `result_map`.  Non-`.ftdc` entries are
skipped; a tool failure, an unreadable output, or a conversion error
hits a `continue`; on success the filtered dict is stored under the
base identifier. -/
def process_loop (acc : List (String × List (String × ℚ))) :
    List FtdcFile → List (String × List (String × ℚ))
  | [] => acc
  | f :: rest =>
    if strEndsWith f.filename (".ftdc") then
      match f.outcome with
      | .toolFail => process_loop acc rest
      | .readFail => process_loop acc rest
      | .parsed items =>
        match extractFields items [] with
        | .ok filtered => process_loop (dictInsert acc (dropRight5 f.filename) filtered) rest
        | .error _ => process_loop acc rest
    else process_loop acc rest

/-- What `process_ftdc_files` produces: the mapping passed to
`print(json.dumps(...))`, and the Python return value of the function
body, which has no `return` statement and hence returns `None`. -/
structure ProcessResult where
  printed : List (String × List (String × ℚ))
  ret : Option (List (String × List (String × ℚ)))

/-- `process_ftdc_files(ftdc_dir, curator_path)`: the directory listing
and per-file tool behaviour are supplied as data. -/
def process_ftdc_files (files : List FtdcFile) : ProcessResult :=
  { printed := process_loop [] files, ret := none }

/-- Modelled from the spec (section 4.3): the summary a single capture
contributes to the aggregate mapping, `none` when it contributes
nothing. -/
def fileSummary (f : FtdcFile) : Option (String × List (String × ℚ)) :=
  if strEndsWith f.filename (".ftdc") then
    match f.outcome with
    | .parsed items =>
      match extractFields items [] with
      | .ok fm => some (dropRight5 f.filename, fm)
      | .error _ => none
    | _ => none
  else none

/-- Modelled from the spec (section 4.3): the aggregate mapping from
capture identifier to per-file summary, accumulated per file. -/
def aggregateMap (files : List FtdcFile) : List (String × List (String × ℚ)) :=
  files.foldl
    (fun m f =>
      match fileSummary f with
      | some kv => dictInsert m kv.1 kv.2
      | none => m)
    []

/-- The spec-side field/divisor families of claim C1: latency-family
names divided by 1e6. -/
def latencyFields : List String :=
  ["AverageLatency", "Latency50thPercentile", "Latency80thPercentile",
   "Latency90thPercentile", "Latency95thPercentile", "Latency99thPercentile",
   "LatencyMin", "LatencyMax"]

/-- The spec-side field/divisor families of claim C1: names passed
through with divisor 1. -/
def passthroughFields : List String :=
  ["OperationThroughput", "ErrorRate", "ErrorsTotal",
   "OperationsTotal", "DocumentsTotal"]

/- ## cedar_report.py: report document model and builder -/

/-- `CedarBucketConfig` namedtuple.  The source names the last field
`prefix`; it is renamed here because that identifier is unusable in
this development. -/
structure CedarBucketConfig where
  api_key : String
  api_secret : String
  api_token : Option String
  region : String
  name : String
  pfx : String
deriving DecidableEq

/-- `CedarTestArtifact` namedtuple. -/
structure CedarTestArtifact where
  bucket : String
  path : String
  tags : List String
  local_path : String
  created_at : Int
  is_uncompressed : Bool
deriving DecidableEq

/-- `CedarTestInfo` namedtuple. -/
structure CedarTestInfo where
  test_name : String
  trial : Nat
  tags : List String
  args : List (String × String)
deriving DecidableEq

/-- The value stored in the dynamically typed `artifacts` slot of a
`CedarTest`: Python lets the builder put either the artifact list or
the bucket-config dict there, so the slot is embedded as a sum. -/
inductive ArtifactsSlot where
  | bucketConf (b : CedarBucketConfig)
  | artifactList (l : List CedarTestArtifact)
deriving DecidableEq

/-- `CedarTest` namedtuple; `metrics` and `sub_tests` are unused and
always `None`. -/
structure CedarTest where
  info : CedarTestInfo
  created_at : Int
  completed_at : Int
  artifacts : ArtifactsSlot
  metrics : Option Unit
  sub_tests : Option Unit
deriving DecidableEq

/-- `CedarReport` namedtuple. -/
structure CedarReport where
  project : String
  version : String
  variant : String
  task_name : String
  task_id : String
  execution_number : String
  mainline : Bool
  tests : List CedarTest
  bucket : CedarBucketConfig
deriving DecidableEq

/-- The environment keys read by `_Config.__init__`; environment
values are strings. -/
structure EnvVars where
  EVG_project : String
  EVG_version : String
  EVG_variant : String
  EVG_task_name : String
  EVG_task_id : String
  EVG_execution_number : String
  EVG_is_patch : String
  test_name : String
  aws_key : String
  aws_secret : String

/-- The `_Config` object: an immutable snapshot of the run metadata.
Timestamps are modelled as integers (`now` stands for
`datetime.datetime.utcnow()` sampled by the constructor, passed in
explicitly here; `test_run_time` is the duration subtracted to obtain
`created_at`). -/
structure Config where
  project : String
  version : String
  variant : String
  task_name : String
  task_id : String
  execution_number : String
  mainline : Bool
  test_name : String
  metrics_file_names : List String
  test_run_time : Int
  now : Int
  api_key : String
  api_secret : String
  cloud_region : String
  cloud_bucket : String

/-- `_Config.__init__`: copies the environment keys, computes
`mainline = not (env[EVG_is_patch] == "true")`, and fixes region and
bucket constants. -/
def Config.init (env : EnvVars) (metrics_file_names : List String)
    (test_run_time : Int) (now : Int) : Config :=
  { project := env.EVG_project
    version := env.EVG_version
    variant := env.EVG_variant
    task_name := env.EVG_task_name
    task_id := env.EVG_task_id
    execution_number := env.EVG_execution_number
    mainline := !(env.EVG_is_patch == "true")
    test_name := env.test_name
    metrics_file_names := metrics_file_names
    test_run_time := test_run_time
    now := now
    api_key := env.aws_key
    api_secret := env.aws_secret
    cloud_region := "us-east-1"
    cloud_bucket := "dsi-genny-metrics" }

/-- The `created_at` property: `now - test_run_time`. -/
def Config.created_at (c : Config) : Int := c.now - c.test_run_time

/-- Python `os.path.basename`: everything after the last slash. -/
def basename (path : String) : String :=
  ⟨path.data.foldl (fun acc c => if c = '/' then [] else acc ++ [c]) []⟩

/-- The artifact list assembled by the loop at the top of
`build_report`.  The source builds this list and then never reads it:
the `CedarTest` is constructed with the bucket-config dict in its
`artifacts` slot instead. -/
def build_artifacts (config : Config) : List CedarTestArtifact :=
  config.metrics_file_names.map (fun path =>
    { bucket := config.cloud_bucket
      path := basename path
      tags := []
      local_path := path
      created_at := Config.created_at config
      is_uncompressed := true })

/-- `build_report(config)`. -/
def build_report (config : Config) : CedarReport :=
  let _artifacts := build_artifacts config
  let bucket_pfx := config.task_id ++ "_" ++ config.execution_number
  let bucket_config : CedarBucketConfig :=
    { api_key := config.api_key
      api_secret := config.api_secret
      api_token := none
      region := config.cloud_region
      name := config.cloud_bucket
      pfx := bucket_pfx }
  let test_info : CedarTestInfo :=
    { test_name := config.test_name, trial := 0, tags := [], args := [] }
  let test : CedarTest :=
    { info := test_info
      created_at := Config.created_at config
      completed_at := config.now
      artifacts := ArtifactsSlot.bucketConf bucket_config
      metrics := none
      sub_tests := none }
  { project := config.project
    version := config.version
    variant := config.variant
    task_name := config.task_name
    task_id := config.task_id
    execution_number := config.execution_number
    mainline := config.mainline
    tests := [test]
    bucket := bucket_config }

/- ## cedar_report.py: certificate fetch -/

/-- The ambient state one `CertRetriever._fetch` call sees: whether the
target file already exists, and the status and body of the HTTP
response that a request would receive. -/
structure FetchWorld where
  outputExists : Bool
  respStatus : Nat
  respBody : String

/-- What one `_fetch` call did: the result (`ok` path or the raised
HTTP error status), whether a network request was issued, and the
contents written to the target file, if any. -/
structure FetchOutcome where
  result : Except Nat String
  networkCalled : Bool
  written : Option String

/-- `CertRetriever._fetch(url, output)`: return the cached path when
the file exists; otherwise issue the request, let
`raise_for_status()` raise on a 4xx or 5xx status, and otherwise
write the body and return the path. -/
def CertRetriever_fetch (_url output : String) (w : FetchWorld) : FetchOutcome :=
  if w.outputExists then
    { result := .ok output, networkCalled := false, written := none }
  else if 400 ≤ w.respStatus ∧ w.respStatus < 600 then
    { result := .error w.respStatus, networkCalled := true, written := none }
  else
    { result := .ok output, networkCalled := true, written := some w.respBody }

/-- `CertRetriever.root_ca`. -/
def root_ca (w : FetchWorld) : FetchOutcome :=
  CertRetriever_fetch ("https://cedar.mongodb.com/rest/v1/admin/ca") ("cedar.ca.pem") w

/-- `CertRetriever.user_cert`. -/
def user_cert (w : FetchWorld) : FetchOutcome :=
  CertRetriever_fetch ("https://cedar.mongodb.com/rest/v1/admin/users/certificate")
    ("cedar.user.crt") w

/-- `CertRetriever.user_key`. -/
def user_key (w : FetchWorld) : FetchOutcome :=
  CertRetriever_fetch ("https://cedar.mongodb.com/rest/v1/admin/users/certificate/key")
    ("cedar.user.key") w

/- ## Concrete inputs used by the claims -/

/-- The tool output of the spec scenario for capture run1.ftdc. -/
def demoItems : List OutputItem :=
  [{ Name := some ("AverageLatency"), Value := some (PyVal.num 2000000) },
   { Name := some ("Unused"), Value := some (PyVal.num 5) }]

/-- A batch holding only the run1.ftdc capture of the spec scenario. -/
def demoFiles : List FtdcFile :=
  [{ filename := "run1.ftdc", outcome := .parsed demoItems }]

/-- A concrete environment snapshot. -/
def envA : EnvVars :=
  { EVG_project := "p", EVG_version := "v", EVG_variant := "var"
    EVG_task_name := "tn", EVG_task_id := "tid", EVG_execution_number := "0"
    EVG_is_patch := "false", test_name := "t", aws_key := "k", aws_secret := "s" }

/-- The Config of the spec scenario with two metric files. -/
def configA : Config := Config.init envA ["/tmp/a.txt", "/tmp/b.txt"] 10 100

/-- The bucket config that build_report assembles from `configA`. -/
def bucketA : CedarBucketConfig :=
  { api_key := "k", api_secret := "s", api_token := none
    region := "us-east-1", name := "dsi-genny-metrics", pfx := "tid_0" }

/-- A capture whose curator invocation exits non-zero. -/
def badFile : FtdcFile := { filename := "bad.ftdc", outcome := .toolFail }

/-- A capture that succeeds with an empty record list. -/
def goodFile : FtdcFile := { filename := "run1.ftdc", outcome := .parsed [] }

/-- Records where a recognized field has a missing Value after one
successfully converted field. -/
def c10items : List OutputItem :=
  [{ Name := some ("AverageLatency"), Value := some (PyVal.num 1000000) },
   { Name := some ("LatencyMin"), Value := none }]

/-- A config whose task id itself holds an underscore. -/
def configU1 : Config :=
  Config.init { envA with EVG_task_id := "a_b", EVG_execution_number := "c" }
    ["/tmp/a.txt"] 10 100

/-- A config differing from `configU1` in both task id and execution
number yet producing the same joined prefix string. -/
def configU2 : Config :=
  Config.init { envA with EVG_task_id := "a", EVG_execution_number := "b_c" }
    ["/tmp/a.txt"] 10 100

/- ## Helper lemmas -/

/-- Step equation: a record with a recognized name and numeric value
stores the rounded converted value. -/
theorem extract_step_recognized (n : String) (conv : ℚ → ℚ) (h : lookupField n = some conv)
    (v : ℚ) (rest : List OutputItem) (acc : List (String × ℚ)) :
    extractFields ({ Name := some n, Value := some (PyVal.num v) } :: rest) acc =
      extractFields rest (dictInsert acc n (pyRound3 (conv v))) := by
  simp only [extractFields, h]

/-- Step equation: a record with an unrecognized name is skipped. -/
theorem extract_step_unrecognized (n : String) (h : lookupField n = none)
    (val : Option PyVal) (rest : List OutputItem) (acc : List (String × ℚ)) :
    extractFields ({ Name := some n, Value := val } :: rest) acc = extractFields rest acc := by
  simp only [extractFields, h]

/-- Reading a key other than the inserted one is unchanged. -/
theorem dictGet_insert_ne {α : Type} (d : List (String × α)) (k q : String) (v : α)
    (h : q ≠ k) : dictGet (dictInsert d q v) k = dictGet d k := by
  have hqk : (q == k) = false := by simp [h]
  induction d with
  | nil => simp [dictInsert, dictGet, List.find?, hqk]
  | cons hd tl ih =>
    by_cases hq : hd.1 = q
    · simp [dictInsert, hq, dictGet, List.find?, hqk]
    · simp only [dictInsert, if_neg hq]
      by_cases hk : hd.1 = k
      · simp [dictGet, List.find?, hk]
      · have h1 : (hd.1 == k) = false := by simp [hk]
        simp [dictGet, List.find?, h1] at ih ⊢
        exact ih

/-- Keys of a successful extraction are recognized field names (an
unrecognized key absent from the accumulator stays absent). -/
theorem extract_ok_keys : ∀ (items : List OutputItem) (acc fm : List (String × ℚ)),
    extractFields items acc = .ok fm → ∀ k, lookupField k = none →
    dictGet acc k = none → dictGet fm k = none := by
  intro items
  induction items with
  | nil =>
    intro acc fm h k _ hacc
    simp only [extractFields] at h
    cases h
    exact hacc
  | cons it rest ih =>
    intro acc fm h k hk hacc
    obtain ⟨nm, val⟩ := it
    cases nm with
    | none => exact ih acc fm h k hk hacc
    | some n =>
      cases hl : lookupField n with
      | none =>
        rw [extract_step_unrecognized n hl val rest acc] at h
        exact ih acc fm h k hk hacc
      | some conv =>
        cases val with
        | none =>
          simp only [extractFields, hl] at h
          exact Except.noConfusion h
        | some pv =>
          cases pv with
          | num q =>
            rw [extract_step_recognized n conv hl q rest acc] at h
            have hnk : n ≠ k := by
              intro he
              rw [he, hk] at hl
              cases hl
            exact ih _ fm h k hk (by rw [dictGet_insert_ne acc k n _ hnk]; exact hacc)
          | str s =>
            simp only [extractFields, hl] at h
            exact Except.noConfusion h
          | null =>
            simp only [extractFields, hl] at h
            exact Except.noConfusion h

/-- The loop body of the aggregate accumulation. -/
def aggStep (m : List (String × List (String × ℚ))) (f : FtdcFile) :
    List (String × List (String × ℚ)) :=
  match fileSummary f with
  | some kv => dictInsert m kv.1 kv.2
  | none => m

/-- The capture loop is the fold of `aggStep`. -/
theorem process_loop_eq_foldl : ∀ (files : List FtdcFile) (acc),
    process_loop acc files = files.foldl aggStep acc := by
  intro files
  induction files with
  | nil => intro acc; rfl
  | cons f rest ih =>
    intro acc
    by_cases hc : strEndsWith f.filename (".ftdc")
    · cases ho : f.outcome with
      | toolFail =>
        simp only [process_loop, hc, if_true, ho, List.foldl_cons, aggStep, fileSummary]
        rw [ih]
      | readFail =>
        simp only [process_loop, hc, if_true, ho, List.foldl_cons, aggStep, fileSummary]
        rw [ih]
      | parsed items =>
        cases hext : extractFields items [] with
        | ok filtered =>
          simp only [process_loop, hc, if_true, ho, hext, List.foldl_cons, aggStep, fileSummary]
          rw [ih]
        | error e =>
          simp only [process_loop, hc, if_true, ho, hext, List.foldl_cons, aggStep, fileSummary]
          rw [ih]
    · simp only [process_loop, hc, if_false, List.foldl_cons, aggStep, fileSummary]
      rw [ih]
      simp [hc]

/-- A capture that yields no summary is invisible to the batch. -/
theorem process_skip (acc : List (String × List (String × ℚ))) (pre post : List FtdcFile)
    (f : FtdcFile) (h : fileSummary f = none) :
    process_loop acc (pre ++ f :: post) = process_loop acc (pre ++ post) := by
  rw [process_loop_eq_foldl, process_loop_eq_foldl, List.foldl_append, List.foldl_append]
  simp [List.foldl_cons, aggStep, h]

/-- A failed tool run or unreadable output yields no summary. -/
theorem fileSummary_fail (f : FtdcFile)
    (h : f.outcome = ToolOutcome.toolFail ∨ f.outcome = ToolOutcome.readFail) :
    fileSummary f = none := by
  rcases h with h | h <;> (unfold fileSummary; simp only [h]; split <;> rfl)

/-- No capture contributes a key, so the key is absent. -/
theorem agg_no_key : ∀ (files : List FtdcFile) (acc) (k : String),
    dictGet acc k = none → (∀ f ∈ files, ∀ fm, fileSummary f ≠ some (k, fm)) →
    dictGet (files.foldl aggStep acc) k = none := by
  intro files
  induction files with
  | nil => intro acc k h _; exact h
  | cons f rest ih =>
    intro acc k h hall
    simp only [List.foldl_cons]
    apply ih
    · cases hs : fileSummary f with
      | none => simpa [aggStep, hs] using h
      | some kv =>
        have hne : kv.1 ≠ k := by
          intro he
          apply hall f (List.mem_cons_self f rest) kv.2
          rw [hs]
          obtain ⟨k1, fm1⟩ := kv
          simp at he
          rw [he]
        simp only [aggStep, hs]
        rw [dictGet_insert_ne acc k kv.1 kv.2 hne]
        exact h
    · intro g hg fm
      exact hall g (List.mem_cons_of_mem f hg) fm

/- ## Claim theorems -/

/-- Claim C1: every recognized field with divisor d and numeric raw
value v is stored as round(v/d, 3) under its name (latency family
divides by 1e6, DurationTotal by 1e9, the rest by 1); concretely, the
run1.ftdc scenario yields the aggregate entry run1 with
AverageLatency 2.0. -/
theorem claim_C1 :
    (∀ n, n ∈ latencyFields → ∀ (v : ℚ) (rest : List OutputItem) (acc : List (String × ℚ)),
      extractFields ({ Name := some n, Value := some (PyVal.num v) } :: rest) acc =
        extractFields rest (dictInsert acc n (pyRound3 (v / 1000000)))) ∧
    (∀ (v : ℚ) (rest : List OutputItem) (acc : List (String × ℚ)),
      extractFields ({ Name := some ("DurationTotal"), Value := some (PyVal.num v) } :: rest) acc =
        extractFields rest (dictInsert acc ("DurationTotal") (pyRound3 (v / 1000000000)))) ∧
    (∀ n, n ∈ passthroughFields → ∀ (v : ℚ) (rest : List OutputItem) (acc : List (String × ℚ)),
      extractFields ({ Name := some n, Value := some (PyVal.num v) } :: rest) acc =
        extractFields rest (dictInsert acc n (pyRound3 (v / 1)))) ∧
    (process_ftdc_files demoFiles).printed = [("run1", [("AverageLatency", 2)])] := by
  refine ⟨?_, ?_, ?_, ?_⟩
  · intro n hn v rest acc
    fin_cases hn <;> exact extract_step_recognized _ (fun w => w / 1000000) (by rfl) v rest acc
  · intro v rest acc
    exact extract_step_recognized _ (fun w => w / 1000000000) (by rfl) v rest acc
  · intro n hn v rest acc
    rw [div_one]
    fin_cases hn <;> exact extract_step_recognized _ (fun w => w) (by rfl) v rest acc
  · simp [demoFiles, process_ftdc_files, process_loop, demoItems, extractFields, lookupField,
      FIELDS_TO_EXTRACT, dictInsert, dropRight5,
      show strEndsWith ("run1.ftdc") (".ftdc") = true from by decide]
    norm_num [pyRound3, roundHalfEven]

/-- Witness for claim C1: instantiated at AverageLatency with raw
value 2000000. -/
theorem claim_C1_witness :
    ("AverageLatency" ∈ latencyFields) ∧
    extractFields ({ Name := some ("AverageLatency"), Value := some (PyVal.num 2000000) } :: []) [] =
      extractFields [] (dictInsert [] ("AverageLatency") (pyRound3 (2000000 / 1000000))) :=
  ⟨by decide, claim_C1.1 ("AverageLatency") (by decide) 2000000 [] []⟩

/-- Claim C4: the conversion table has fourteen names; a record with
an unrecognized name is skipped without error, and a successful
extraction holds no entry under an unrecognized name. -/
theorem claim_C4 :
    FIELDS_TO_EXTRACT.length = 14 ∧
    (∀ (n : String) (val : Option PyVal) (rest : List OutputItem) (acc : List (String × ℚ)),
      lookupField n = none →
      extractFields ({ Name := some n, Value := val } :: rest) acc = extractFields rest acc) ∧
    (∀ (items : List OutputItem) (fm : List (String × ℚ)) (n : String),
      extractFields items [] = .ok fm → lookupField n = none → dictGet fm n = none) := by
  refine ⟨rfl, ?_, ?_⟩
  · intro n val rest acc h
    exact extract_step_unrecognized n h val rest acc
  · intro items fm n h hn
    exact extract_ok_keys items [] fm h n hn rfl

/-- Witness for claim C4: the Unused record of the spec scenario is
dropped and absent. -/
theorem claim_C4_witness :
    extractFields ({ Name := some ("Unused"), Value := some (PyVal.num 5) } :: []) [] =
      extractFields [] [] ∧
    dictGet ([] : List (String × ℚ)) ("Unused") = none :=
  ⟨claim_C4.2.1 ("Unused") (some (PyVal.num 5)) [] [] rfl,
   claim_C4.2.2 [{ Name := some ("Unused"), Value := some (PyVal.num 5) }] [] ("Unused")
     (by rw [claim_C4.2.1 ("Unused") (some (PyVal.num 5)) [] [] rfl]; rfl)
     rfl⟩

/-- Claim C6: the built Report passes the Config mainline through, and
a Config built from the environment sets mainline to the negation of
the patch flag EVG_is_patch == "true". -/
theorem claim_C6 :
    (∀ c : Config, (build_report c).mainline = c.mainline) ∧
    (∀ (env : EnvVars) (mfn : List String) (trt now : Int),
      (build_report (Config.init env mfn trt now)).mainline = !(env.EVG_is_patch == "true")) :=
  ⟨fun _ => rfl, fun _ _ _ _ => rfl⟩

/-- Claim C7: build_report is deterministic, a function of the Config
snapshot fields alone. -/
theorem claim_C7 (c1 c2 : Config)
    (h1 : c1.project = c2.project) (h2 : c1.version = c2.version)
    (h3 : c1.variant = c2.variant) (h4 : c1.task_name = c2.task_name)
    (h5 : c1.task_id = c2.task_id) (h6 : c1.execution_number = c2.execution_number)
    (h7 : c1.mainline = c2.mainline) (h8 : c1.test_name = c2.test_name)
    (h9 : c1.metrics_file_names = c2.metrics_file_names)
    (h10 : c1.test_run_time = c2.test_run_time) (h11 : c1.now = c2.now)
    (h12 : c1.api_key = c2.api_key) (h13 : c1.api_secret = c2.api_secret)
    (h14 : c1.cloud_region = c2.cloud_region) (h15 : c1.cloud_bucket = c2.cloud_bucket) :
    build_report c1 = build_report c2 := by
  obtain ⟨⟩ := c1
  obtain ⟨⟩ := c2
  simp_all

/-- Witness for claim C7: two identical concrete snapshots build the
same report. -/
theorem claim_C7_witness : build_report configA = build_report configA :=
  claim_C7 configA configA rfl rfl rfl rfl rfl rfl rfl rfl rfl rfl rfl rfl rfl rfl rfl

/-- Claim C2 (code bug): on the two-file Config the built Report holds
a single Test whose artifacts slot is the bucket-config dict, not the
artifact list; the two TestArtifacts with remote paths a.txt and b.txt
are assembled by the builder loop and then discarded. -/
theorem claim_C2 :
    (build_report configA).tests.map CedarTest.artifacts = [ArtifactsSlot.bucketConf bucketA] ∧
    build_artifacts configA =
      [{ bucket := "dsi-genny-metrics", path := "a.txt", tags := [],
         local_path := "/tmp/a.txt", created_at := 90, is_uncompressed := true },
       { bucket := "dsi-genny-metrics", path := "b.txt", tags := [],
         local_path := "/tmp/b.txt", created_at := 90, is_uncompressed := true }] := by
  exact ⟨rfl, by decide⟩

/-- Claim C3: a capture whose tool invocation fails, or whose output
cannot be read, leaves the batch result exactly as it would be
without that capture, and contributes no key of its own. -/
theorem claim_C3 (pre post : List FtdcFile) (f : FtdcFile)
    (h : f.outcome = ToolOutcome.toolFail ∨ f.outcome = ToolOutcome.readFail) :
    (process_ftdc_files (pre ++ f :: post)).printed =
      (process_ftdc_files (pre ++ post)).printed ∧
    ((∀ g ∈ pre ++ post, ∀ fm, fileSummary g ≠ some (dropRight5 f.filename, fm)) →
      dictGet (process_ftdc_files (pre ++ f :: post)).printed (dropRight5 f.filename) = none) := by
  have hnone := fileSummary_fail f h
  constructor
  · exact process_skip [] pre post f hnone
  · intro hall
    show dictGet (process_loop [] (pre ++ f :: post)) (dropRight5 f.filename) = none
    rw [process_skip [] pre post f hnone, process_loop_eq_foldl]
    exact agg_no_key (pre ++ post) [] _ rfl hall

/-- Witness for claim C3: a failing capture next to a succeeding one
vanishes from the aggregate. -/
theorem claim_C3_witness :
    (process_ftdc_files (badFile :: [goodFile])).printed =
      (process_ftdc_files [goodFile]).printed ∧
    dictGet (process_ftdc_files (badFile :: [goodFile])).printed
      (dropRight5 badFile.filename) = none := by
  have h := claim_C3 [] [goodFile] badFile (Or.inl rfl)
  refine ⟨h.1, h.2 ?_⟩
  intro g hg fm hsum
  have hgg : g = goodFile := by simpa using hg
  subst hgg
  have hgood : fileSummary goodFile = some ("run1", []) := by
    simp [fileSummary, goodFile, extractFields, dropRight5,
      show strEndsWith ("run1.ftdc") (".ftdc") = true from by decide]
  have hb : dropRight5 badFile.filename = "bad" := by decide
  rw [hgood, hb] at hsum
  injection hsum with h1
  injection h1 with ha _
  exact absurd ha (by decide)

/-- Counterexample for claim C5: on the run1 scenario the function
computes and prints the aggregate mapping but returns no value at
all (the Python body has no return statement). -/
theorem claim_C5_cex :
    ((process_ftdc_files demoFiles).ret).isSome = false ∧
    (process_ftdc_files demoFiles).printed = [("run1", [("AverageLatency", 2)])] := by
  refine ⟨rfl, ?_⟩
  simp [demoFiles, process_ftdc_files, process_loop, demoItems, extractFields, lookupField,
    FIELDS_TO_EXTRACT, dictInsert, dropRight5,
    show strEndsWith ("run1.ftdc") (".ftdc") = true from by decide]
  norm_num [pyRound3, roundHalfEven]

/-- Claim C5 (amended): the aggregator computes the aggregate mapping
from capture identifier to converted field mapping, prints it, and
returns None. -/
theorem claim_C5 (files : List FtdcFile) :
    (process_ftdc_files files).printed = aggregateMap files ∧
    (process_ftdc_files files).ret = none := by
  constructor
  · show process_loop [] files = aggregateMap files
    rw [process_loop_eq_foldl]
    rfl
  · rfl

/-- Claim C9 (amended): an existing target file short-circuits the
fetch with no network call and no write; otherwise a 4xx or 5xx
response raises with no file written, and any other response writes
the body and returns the path. -/
theorem claim_C9 (url output : String) (w : FetchWorld) :
    (w.outputExists = true →
      CertRetriever_fetch url output w =
        { result := .ok output, networkCalled := false, written := none }) ∧
    (w.outputExists = false → 400 ≤ w.respStatus → w.respStatus < 600 →
      CertRetriever_fetch url output w =
        { result := .error w.respStatus, networkCalled := true, written := none }) ∧
    (w.outputExists = false → ¬(400 ≤ w.respStatus ∧ w.respStatus < 600) →
      CertRetriever_fetch url output w =
        { result := .ok output, networkCalled := true, written := some w.respBody }) := by
  refine ⟨?_, ?_, ?_⟩
  · intro h
    simp [CertRetriever_fetch, h]
  · intro h h4 h6
    simp only [CertRetriever_fetch, h]
    rw [if_neg (by simp), if_pos ⟨h4, h6⟩]
  · intro h hno
    simp only [CertRetriever_fetch, h]
    rw [if_neg (by simp), if_neg hno]

/-- Witness for claim C9: a 404 on the root CA endpoint with no cached
file raises and writes nothing. -/
theorem claim_C9_witness :
    CertRetriever_fetch ("https://cedar.mongodb.com/rest/v1/admin/ca") ("cedar.ca.pem")
      { outputExists := false, respStatus := 404, respBody := "x" } =
      { result := .error 404, networkCalled := true, written := none } :=
  (claim_C9 ("https://cedar.mongodb.com/rest/v1/admin/ca") ("cedar.ca.pem")
    { outputExists := false, respStatus := 404, respBody := "x" }).2.1 rfl (by decide) (by decide)

/-- Counterexample for claim C9: with no cached file and a 304
response (not 2xx), the fetch does not raise; it writes the stale
body and returns the path. -/
theorem claim_C9_cex :
    (300 ≤ 304 ∧ 304 < 400) ∧
    CertRetriever_fetch ("https://cedar.mongodb.com/rest/v1/admin/ca") ("cedar.ca.pem")
      { outputExists := false, respStatus := 304, respBody := "stale" } =
      { result := .ok ("cedar.ca.pem"), networkCalled := true, written := some ("stale") } :=
  ⟨by decide, rfl⟩

/-- Appending after a separator char absent from both suffixes is
injective. -/
theorem underscore_split_aux : ∀ (u1 v1 u2 v2 : List Char),
    '_' ∉ u1 → '_' ∉ u2 → u1 ++ '_' :: v1 = u2 ++ '_' :: v2 → u1 = u2 ∧ v1 = v2 := by
  intro u1
  induction u1 with
  | nil =>
    intro v1 u2 v2 _ h2 heq
    cases u2 with
    | nil => simpa using heq
    | cons c u2' =>
      injection heq with hc _
      exact absurd (hc ▸ List.mem_cons_self '_' u2') h2
  | cons c u1' ih =>
    intro v1 u2 v2 h1 h2 heq
    cases u2 with
    | nil =>
      injection heq with hc _
      exact absurd (hc ▸ List.mem_cons_self '_' u1') h1
    | cons d u2' =>
      injection heq with hc htl
      have h1' : '_' ∉ u1' := fun hm => h1 (List.mem_cons_of_mem c hm)
      have h2' : '_' ∉ u2' := fun hm => h2 (List.mem_cons_of_mem d hm)
      obtain ⟨he, hv⟩ := ih v1 u2' v2 h1' h2' htl
      exact ⟨by rw [hc, he], hv⟩

/-- String append acts as list append on the underlying data. -/
theorem string_data_append (a b : String) : (a ++ b).data = a.data ++ b.data := rfl

/-- Strings with equal character data are equal. -/
theorem string_data_inj {a b : String} (h : a.data = b.data) : a = b := by
  cases a
  cases b
  exact congrArg String.mk h

/-- Joining with an underscore is injective when the right parts hold
no underscore. -/
theorem joinUnderscore_inj (t1 s1 t2 s2 : String)
    (h1 : '_' ∉ s1.data) (h2 : '_' ∉ s2.data)
    (heq : t1 ++ "_" ++ s1 = t2 ++ "_" ++ s2) : t1 = t2 ∧ s1 = s2 := by
  have hd := congrArg String.data heq
  rw [string_data_append, string_data_append, string_data_append, string_data_append] at hd
  have hd' : t1.data ++ '_' :: s1.data = t2.data ++ '_' :: s2.data := by
    simpa [List.append_assoc] using hd
  have hrev := congrArg List.reverse hd'
  rw [List.reverse_append, List.reverse_append, List.reverse_cons, List.reverse_cons] at hrev
  have hrev' : s1.data.reverse ++ '_' :: t1.data.reverse =
      s2.data.reverse ++ '_' :: t2.data.reverse := by
    simpa [List.append_assoc] using hrev
  obtain ⟨hs, ht⟩ := underscore_split_aux _ _ _ _
    (by simpa using h1) (by simpa using h2) hrev'
  refine ⟨string_data_inj ?_, string_data_inj ?_⟩
  · exact List.reverse_inj.mp ht
  · exact List.reverse_inj.mp hs

/-- Claim C8 (amended): the bucket prefix is the task id and execution
number joined by an underscore, so equal fields give equal prefixes;
and when the execution numbers hold no underscore, equal prefixes
force equal fields (distinctness of differing Configs). -/
theorem claim_C8 :
    (∀ c : Config, (build_report c).bucket.pfx = c.task_id ++ "_" ++ c.execution_number) ∧
    (∀ c1 c2 : Config, c1.task_id = c2.task_id → c1.execution_number = c2.execution_number →
      (build_report c1).bucket.pfx = (build_report c2).bucket.pfx) ∧
    (∀ c1 c2 : Config, '_' ∉ c1.execution_number.data → '_' ∉ c2.execution_number.data →
      (build_report c1).bucket.pfx = (build_report c2).bucket.pfx →
      c1.task_id = c2.task_id ∧ c1.execution_number = c2.execution_number) := by
  refine ⟨fun _ => rfl, ?_, ?_⟩
  · intro c1 c2 h1 h2
    show c1.task_id ++ "_" ++ c1.execution_number = c2.task_id ++ "_" ++ c2.execution_number
    rw [h1, h2]
  · intro c1 c2 h1 h2 heq
    exact joinUnderscore_inj c1.task_id c1.execution_number c2.task_id c2.execution_number
      h1 h2 heq

/-- Witness for claim C8: the injectivity direction applied to the
concrete snapshot with execution number 0. -/
theorem claim_C8_witness :
    configA.task_id = configA.task_id ∧
    configA.execution_number = configA.execution_number :=
  claim_C8.2.2 configA configA (by decide) (by decide) rfl

/-- Counterexample for claim C8: two Configs differing in both task id
and execution number whose joined prefixes coincide ("a_b" with "c"
against "a" with "b_c"). -/
theorem claim_C8_cex :
    (build_report configU1).bucket.pfx = (build_report configU2).bucket.pfx ∧
    (configU1.task_id == configU2.task_id) = false ∧
    (configU1.execution_number == configU2.execution_number) = false :=
  ⟨rfl, by decide, by decide⟩

/-- A recognized record with a missing or non-numeric value aborts the
extraction of the whole file. -/
theorem extract_bad_error : ∀ (items : List OutputItem) (acc : List (String × ℚ)),
    (∃ it ∈ items, (∃ n conv, it.Name = some n ∧ lookupField n = some conv) ∧
      ∀ q : ℚ, it.Value ≠ some (PyVal.num q)) →
    extractFields items acc = .error () := by
  intro items
  induction items with
  | nil =>
    intro acc h
    obtain ⟨it, hmem, _⟩ := h
    simp at hmem
  | cons hd rest ih =>
    intro acc h
    obtain ⟨it, hmem, hrec, hbad⟩ := h
    rcases List.mem_cons.mp hmem with hit | hit
    · subst hit
      obtain ⟨nm, val⟩ := it
      obtain ⟨n, conv, hn, hconv⟩ := hrec
      have hn' : nm = some n := hn
      subst hn'
      cases val with
      | none => simp only [extractFields, hconv]
      | some pv =>
        cases pv with
        | num q => exact absurd rfl (hbad q)
        | str s => simp only [extractFields, hconv]
        | null => simp only [extractFields, hconv]
    · have herr := ih acc ⟨it, hit, hrec, hbad⟩
      obtain ⟨nm, val⟩ := hd
      cases nm with
      | none => exact herr
      | some n =>
        cases hl : lookupField n with
        | none =>
          rw [extract_step_unrecognized n hl val rest acc]
          exact herr
        | some conv =>
          cases val with
          | none => simp only [extractFields, hl]
          | some pv =>
            cases pv with
            | num q =>
              rw [extract_step_recognized n conv hl q rest acc]
              exact ih _ ⟨it, hit, hrec, hbad⟩
            | str s => simp only [extractFields, hl]
            | null => simp only [extractFields, hl]

/-- Claim C10: one recognized record with a missing or non-numeric
Value excludes the whole capture: extraction errors, no partial record
survives, and the batch is as if the capture were absent. -/
theorem claim_C10 (pre post : List FtdcFile) (fn : String) (items : List OutputItem)
    (hend : strEndsWith fn (".ftdc") = true)
    (hbad : ∃ it ∈ items, (∃ n conv, it.Name = some n ∧ lookupField n = some conv) ∧
      ∀ q : ℚ, it.Value ≠ some (PyVal.num q)) :
    extractFields items [] = .error () ∧
    (process_ftdc_files
        (pre ++ { filename := fn, outcome := ToolOutcome.parsed items } :: post)).printed =
      (process_ftdc_files (pre ++ post)).printed := by
  have herr := extract_bad_error items [] hbad
  refine ⟨herr, ?_⟩
  apply process_skip
  simp [fileSummary, hend, herr]

/-- Witness for claim C10: a capture whose second record is LatencyMin
with no Value is dropped whole, despite its earlier converted
AverageLatency record. -/
theorem claim_C10_witness :
    extractFields c10items [] = .error () ∧
    (process_ftdc_files
        [{ filename := "run2.ftdc", outcome := ToolOutcome.parsed c10items }]).printed =
      (process_ftdc_files []).printed :=
  claim_C10 [] [] ("run2.ftdc") c10items (by decide)
    ⟨{ Name := some ("LatencyMin"), Value := none }, by simp [c10items],
     ⟨"LatencyMin", fun w => w / 1000000, rfl, by rfl⟩,
     fun _ h => Option.noConfusion h⟩
